import Mathlib

set_option autoImplicit false

/- Verification of src/lib/api.js (class RealtimeAPI) from
huqianghui/openai-realtime-api-beta against its specification.

The embedding is shallow: the constructor, isConnected, disconnect, send,
receive and the connect handlers are translated into pure Lean functions.
JavaScript exceptions become Except.error; side effects on the WebSocket and
the event bus become an explicit trace of actions. The parsed URL object
produced by new URL(url) is abstracted to the parts the code reads: the
portion before the query string and the ordered list of query parameters. -/

/-- JSON-compatible values as handled by the client: null, booleans, numbers,
strings and flat objects (association lists in insertion order). Arrays are
not needed by any claim and are omitted from the value universe. -/
inductive JsValue where
  | nullV : JsValue
  | boolV : Bool → JsValue
  | numV : Int → JsValue
  | strV : String → JsValue
  | objV : List (String × JsValue) → JsValue

/-- Property lookup on a JavaScript object: the value at the given key, or
none (undefined) when the key is absent. Keys of an object are unique, so
first match suffices. -/
def objGet : List (String × JsValue) → String → Option JsValue
  | [], _ => none
  | (k, v) :: rest, name => if k = name then some v else objGet rest name

/-- Property assignment on a JavaScript object: an existing key keeps its
position and receives the new value, a new key is appended. This is the
semantics of each step of an object-literal spread. -/
def objSet : List (String × JsValue) → String → JsValue → List (String × JsValue)
  | [], name, v => [(name, v)]
  | (k, w) :: rest, name, v =>
    if k = name then (name, v) :: rest else (k, w) :: objSet rest name v

/-- Object-literal spread: the fields of the source are assigned onto the
base object in order, overwriting keys the base already has. -/
def spreadInto (base : List (String × JsValue)) (fields : List (String × JsValue)) :
    List (String × JsValue) :=
  fields.foldl (fun acc kv => objSet acc kv.1 kv.2) base

/-- Truthiness of a JavaScript value: null, false, zero and the empty string
are falsy; objects are always truthy. -/
def jsTruthy : JsValue → Bool
  | JsValue.nullV => false
  | JsValue.boolV b => b
  | JsValue.numV n => decide (n ≠ 0)
  | JsValue.strV s => decide (s ≠ "")
  | JsValue.objV _ => true

/-- Whether typeof yields the string object for this value. In JavaScript
typeof null is object; booleans, numbers and strings are not objects. -/
def typeofIsObject : JsValue → Bool
  | JsValue.nullV => true
  | JsValue.objV _ => true
  | _ => false

/-- Truthiness of a JavaScript string-or-absent value, as used in the
constructor: null, undefined and the empty string are falsy. -/
def jsTruthyStr : Option String → Bool
  | none => false
  | some s => decide (s ≠ "")

/-- Short-circuit or on string-or-absent values: the left operand when it is
truthy, otherwise the right operand. -/
def jsOrStr (a b : Option String) : Option String :=
  if jsTruthyStr a then a else b

/-- URLSearchParams.get: the value of the first query parameter with the
given name, or null when absent. -/
def searchParamsGet : List (String × String) → String → Option String
  | [], _ => none
  | (k, v) :: rest, name => if k = name then some v else searchParamsGet rest name

/-- URLSearchParams.set: replaces the value of the first parameter with the
given name in place and deletes any further parameters with that name, or
appends the pair when the name is absent. -/
def searchParamsSet : List (String × String) → String → String → List (String × String)
  | [], name, v => [(name, v)]
  | (k, w) :: rest, name, v =>
    if k = name then (name, v) :: rest.filter (fun p => decide (p.1 ≠ name))
    else (k, w) :: searchParamsSet rest name v

/-- A parsed URL, abstracted to the parts the constructor reads and writes:
everything before the query string, and the ordered query parameters. -/
structure URLRec where
  base : String
  params : List (String × String)
  deriving DecidableEq

/-- Synchronous failures of the RealtimeAPI constructor. The last constructor
models the ReferenceError raised at line 51 of src/lib/api.js, where the bare
identifier defaultUrl is read although only the field this.defaultUrl was
ever defined. -/
inductive CtorError where
  | missingApiKey
  | apiKeyMismatch
  | browserApiKey
  | referenceErrorDefaultUrl
  deriving DecidableEq

/-- Fields of a successfully constructed RealtimeAPI instance read by the
claims. -/
structure CtorState where
  defaultUrl : String
  apiKey : Option String
  url : URLRec
  ws : Option Nat
  deriving DecidableEq

/-- Lines 21 to 52 of src/lib/api.js: credential resolution against the URL.
The URLRec argument stands for the object returned by new URL(url); when no
url is given the code reads the undeclared identifier defaultUrl and throws a
ReferenceError. -/
def constructCore (url : Option URLRec) (apiKey : Option String) :
    Except CtorError CtorState :=
  match url with
  | some u =>
    let urlApiKey := searchParamsGet u.params "api-key"
    if !jsTruthyStr urlApiKey && !jsTruthyStr apiKey then
      Except.error CtorError.missingApiKey
    else if jsTruthyStr urlApiKey && jsTruthyStr apiKey && decide (urlApiKey ≠ apiKey) then
      Except.error CtorError.apiKeyMismatch
    else
      let newKey := jsOrStr urlApiKey apiKey
      let finalParams :=
        if jsTruthyStr urlApiKey then u.params
        else searchParamsSet u.params "api-key" (newKey.getD "")
      Except.ok
        { defaultUrl := "wss://api.openai.com/v1/realtime"
          apiKey := newKey
          url := { base := u.base, params := finalParams }
          ws := none }
  | none => Except.error CtorError.referenceErrorDefaultUrl

/-- The full constructor: credential resolution followed by the browser check
of lines 54 to 60. hasDocument models the presence of globalThis.document. -/
def construct (url : Option URLRec) (apiKey : Option String)
    (dangerouslyAllowAPIKeyInBrowser : Bool) (hasDocument : Bool) :
    Except CtorError CtorState :=
  match constructCore url apiKey with
  | Except.error e => Except.error e
  | Except.ok st =>
    if hasDocument && jsTruthyStr st.apiKey then
      if dangerouslyAllowAPIKeyInBrowser then Except.ok st
      else Except.error CtorError.browserApiKey
    else Except.ok st

/-- Successful result of a fallible computation, or none on a thrown error. -/
def okOf {ε α : Type} : Except ε α → Option α
  | Except.ok a => some a
  | Except.error _ => none

/-- Credential stored by a successful construction. -/
def ctorApiKey (r : Except CtorError CtorState) : Option (Option String) :=
  (okOf r).map CtorState.apiKey

/-- Value of the api-key query parameter of the URL stored by a successful
construction. -/
def ctorUrlKey (r : Except CtorError CtorState) : Option (Option String) :=
  (okOf r).map (fun st => searchParamsGet st.url.params "api-key")

/-- Mutable state of a RealtimeAPI instance for the connection operations:
the this.ws field, as an optional numeric handle identity. -/
structure ApiState where
  ws : Option Nat
  deriving DecidableEq

/-- Lines 67 to 69: isConnected returns the double negation of this.ws. -/
def isConnected (st : ApiState) : Bool :=
  st.ws.isSome

/-- Observable side effects of the embedded operations: a local dispatch on
the event bus with an event name and an event value, a write of the
serialized event to the WebSocket, and a close call on a WebSocket handle. -/
inductive JsAction where
  | dispatchAct : String → JsValue → JsAction
  | wireSendAct : JsValue → JsAction
  | closeAct : Nat → JsAction

/-- Whether an action is a local dispatch. -/
def isDispatchAct : JsAction → Bool
  | JsAction.dispatchAct _ _ => true
  | _ => false

/-- Whether an action is a wire write. -/
def isWireSendAct : JsAction → Bool
  | JsAction.wireSendAct _ => true
  | _ => false

/-- Whether the trace contains a close call on the given handle. -/
def containsCloseAct (w : Nat) : List JsAction → Bool
  | [] => false
  | JsAction.closeAct w2 :: rest => (w2 == w) || containsCloseAct w rest
  | _ :: rest => containsCloseAct w rest

/-- Lines 212 to 218: disconnect. When called with no argument, or with the
handle currently held in this.ws, it closes the held handle if any, clears
this.ws and returns true; otherwise it falls through the if and returns
undefined (none) without touching anything. -/
def disconnect (st : ApiState) (arg : Option Nat) :
    ApiState × Option Bool × List JsAction :=
  if arg = none ∨ st.ws = arg then
    match st.ws with
    | some w => ({ ws := none }, some true, [JsAction.closeAct w])
    | none => ({ ws := none }, some true, [])
  else (st, none, [])

/-- Outcome of the pre-open error handler installed by connect. -/
structure ErrorHandlerOutcome where
  state : ApiState
  disconnectRet : Option Bool
  acts : List JsAction
  rejected : Bool

/-- Lines 182 to 186: the error listener registered by connect before the
open event. It calls this.disconnect(ws) on the pending handle w and then
rejects the pending promise with a connection error. The caller guard at
line 97 guarantees this.ws was none when connect registered the listener,
and the open listener has not yet stored the handle. -/
def connectErrorBeforeOpen (st : ApiState) (w : Nat) : ErrorHandlerOutcome :=
  let r := disconnect st (some w)
  { state := r.1, disconnectRet := r.2.1, acts := r.2.2, rejected := true }

/-- Modelled from the spec: RealtimeUtils.generateId of src/lib/utils.js is
not among the provided sources; the spec says identifier generation is
trivial and produces unique non-empty event ids. Modelled as the given
leading tag followed by a decimal nonce. -/
def generateId (tag : String) (nonce : Nat) : String :=
  tag ++ Nat.repr nonce

/-- Synchronous failures of send: the not-connected guard of line 240 and
the typeof guard of line 244. -/
inductive SendError where
  | notConnected
  | dataNotObject
  deriving DecidableEq

/-- Result of a successful send: the built event, the ordered trace of side
effects, and the returned value true. -/
structure SendResult where
  event : List (String × JsValue)
  trace : List JsAction
  ret : Bool

/-- Lines 239 to 257: send. Throws when not connected; replaces a falsy
payload (undefined, null, zero, false, the empty string) by an empty object;
throws when the resulting value is not of typeof object; builds the event
by spreading the payload over the stamped event_id and type fields; then
dispatches locally under client.<name> and under the client wildcard, and
finally writes the serialized event to the WebSocket. The debug log call is
omitted as console-only. -/
def send (st : ApiState) (eventName : String) (data : Option JsValue) (nonce : Nat) :
    Except SendError SendResult :=
  if isConnected st = false then Except.error SendError.notConnected
  else
    let data2 := match data with
      | none => JsValue.objV []
      | some d => if jsTruthy d then d else JsValue.objV []
    if typeofIsObject data2 = false then Except.error SendError.dataNotObject
    else
      let fields := match data2 with
        | JsValue.objV fs => fs
        | _ => []
      let event := spreadInto
        [("event_id", JsValue.strV (generateId "evt_" nonce)),
         ("type", JsValue.strV eventName)] fields
      Except.ok
        { event := event
          trace :=
            [JsAction.dispatchAct ("client." ++ eventName) (JsValue.objV event),
             JsAction.dispatchAct "client.*" (JsValue.objV event),
             JsAction.wireSendAct (JsValue.objV event)]
          ret := true }

/-- Bool form of the ordering asserted by the wire-before-dispatch claim:
on a successful send, the first wire write comes no later than the first
local dispatch in the trace. -/
def sendWireBeforeDispatch (st : ApiState) (eventName : String)
    (data : Option JsValue) (nonce : Nat) : Bool :=
  match send st eventName data nonce with
  | Except.ok r => Nat.ble (List.findIdx isWireSendAct r.trace)
      (List.findIdx isDispatchAct r.trace)
  | Except.error _ => true

/-- Whether a fallible computation returned normally. -/
def exceptIsOk {ε α : Type} : Except ε α → Bool
  | Except.ok _ => true
  | Except.error _ => false

/-- Lines 226 to 231: receive dispatches the event under server.<name> and
under the server wildcard and returns true; the state is untouched. The
debug log call is omitted as console-only. -/
def receive (st : ApiState) (eventName : String) (event : JsValue) :
    ApiState × List JsAction × Bool :=
  (st, [JsAction.dispatchAct ("server." ++ eventName) event,
        JsAction.dispatchAct "server.*" event], true)

/-- Conversion applied by a template literal to an interpolated property
value: an absent property (undefined) prints as the string undefined. -/
def jsTemplateStr : Option JsValue → String
  | none => "undefined"
  | some JsValue.nullV => "null"
  | some (JsValue.boolV b) => cond b "true" "false"
  | some (JsValue.numV n) => toString n
  | some (JsValue.strV s) => s
  | some (JsValue.objV _) => "[object Object]"

/-- Raw inbound frames, classified by whether JSON.parse accepts them. -/
inductive RawMsg where
  | notJson : String → RawMsg
  | jsonVal : JsValue → RawMsg

/-- Exceptions that escape the inbound message listener. -/
inductive ListenerError where
  | jsonParseError
  | typeErrorNullAccess
  deriving DecidableEq

/-- Lines 177 to 180: the message listener parses the raw frame with
JSON.parse, which throws on malformed input and is not caught here; it then
reads message.type, a TypeError when the parsed value is null and undefined
when the parsed value is a non-object primitive, and calls this.receive
with that value interpolated into the event name and the whole message. -/
def onTransportMessage (st : ApiState) (raw : RawMsg) :
    Except ListenerError (ApiState × List JsAction × Bool) :=
  match raw with
  | RawMsg.notJson _ => Except.error ListenerError.jsonParseError
  | RawMsg.jsonVal JsValue.nullV => Except.error ListenerError.typeErrorNullAccess
  | RawMsg.jsonVal v =>
    let t := match v with
      | JsValue.objV fields => objGet fields "type"
      | _ => none
    Except.ok (receive st (jsTemplateStr t) v)

theorem searchParamsGet_set_self (ps : List (String × String)) (name v : String) :
    searchParamsGet (searchParamsSet ps name v) name = some v := by
  induction ps with
  | nil => simp [searchParamsSet, searchParamsGet]
  | cons p rest ih =>
    obtain ⟨k, w⟩ := p
    by_cases h : k = name
    · simp [searchParamsSet, searchParamsGet, h]
    · simp [searchParamsSet, searchParamsGet, h, ih]

/-- C1: credential resolution of the constructor. For a URL embedding the
credential X and an explicit credential Y, a mismatch X not equal to Y throws,
a match succeeds with credential X, no explicit credential succeeds with
credential X and the stored URL still carries api-key equal to X; a URL with
no embedded credential and no explicit credential throws; and an explicit
credential alone succeeds and is injected into the stored URL query string. -/
theorem c1_constructor_credential_resolution
    (uX u0 : URLRec) (X Y : String) (d : Bool)
    (hX : X ≠ "") (hY : Y ≠ "")
    (hgetX : searchParamsGet uX.params "api-key" = some X)
    (hget0 : searchParamsGet u0.params "api-key" = none) :
    (X ≠ Y → construct (some uX) (some Y) d false = Except.error CtorError.apiKeyMismatch) ∧
    (ctorApiKey (construct (some uX) (some X) d false) = some (some X)) ∧
    (ctorApiKey (construct (some uX) none d false) = some (some X) ∧
      ctorUrlKey (construct (some uX) none d false) = some (some X)) ∧
    (construct (some u0) none d false = Except.error CtorError.missingApiKey) ∧
    (ctorApiKey (construct (some u0) (some Y) d false) = some (some Y) ∧
      ctorUrlKey (construct (some u0) (some Y) d false) = some (some Y)) := by
  have hXt : jsTruthyStr (some X) = true := by simp [jsTruthyStr, hX]
  have hYt : jsTruthyStr (some Y) = true := by simp [jsTruthyStr, hY]
  refine ⟨?_, ?_, ⟨?_, ?_⟩, ?_, ⟨?_, ?_⟩⟩
  · intro hxy
    simp [construct, constructCore, hgetX, hXt, hYt, hxy]
  · simp [construct, constructCore, hgetX, hXt, jsOrStr, ctorApiKey, okOf]
  · simp [construct, constructCore, hgetX, hX, hXt, jsTruthyStr, jsOrStr, ctorApiKey, okOf]
  · simp [construct, constructCore, hgetX, hX, hXt, jsTruthyStr, jsOrStr, ctorUrlKey, okOf,
      hgetX]
  · simp [construct, constructCore, hget0, jsTruthyStr]
  · simp [construct, constructCore, hget0, hY, hYt, jsTruthyStr, jsOrStr, ctorApiKey, okOf]
  · simp [construct, constructCore, hget0, hY, hYt, jsTruthyStr, jsOrStr, ctorUrlKey, okOf,
      searchParamsGet_set_self]

/-- Witness for C1 at concrete inputs. -/
theorem c1_constructor_credential_resolution_witness :
    (construct (some { base := "wss://h/x", params := [("api-key", "K")] }) (some "L")
        false false = Except.error CtorError.apiKeyMismatch) ∧
    (ctorApiKey (construct (some { base := "wss://h/x", params := [("api-key", "K")] })
        (some "K") false false) = some (some "K")) ∧
    (ctorApiKey (construct (some { base := "wss://h/x", params := [("api-key", "K")] })
        none false false) = some (some "K") ∧
      ctorUrlKey (construct (some { base := "wss://h/x", params := [("api-key", "K")] })
        none false false) = some (some "K")) ∧
    (construct (some { base := "wss://h/x", params := [("a", "1")] }) none false false
        = Except.error CtorError.missingApiKey) ∧
    (ctorApiKey (construct (some { base := "wss://h/x", params := [("a", "1")] })
        (some "L") false false) = some (some "L") ∧
      ctorUrlKey (construct (some { base := "wss://h/x", params := [("a", "1")] })
        (some "L") false false) = some (some "L")) := by
  have h := c1_constructor_credential_resolution
    { base := "wss://h/x", params := [("api-key", "K")] }
    { base := "wss://h/x", params := [("a", "1")] }
    "K" "L" false (by decide) (by decide) (by rfl) (by rfl)
  exact ⟨h.1 (by decide), h.2.1, h.2.2.1, h.2.2.2.1, h.2.2.2.2⟩

/-- C8: evaluation of the constructor when no URL is given. Line 51 of
src/lib/api.js reads the undeclared identifier defaultUrl, so every no-url
construction throws a ReferenceError, with or without a credential, instead
of falling back to the default endpoint. -/
theorem c8_no_url_reference_error :
    construct none (some "sk-test") false false
        = Except.error CtorError.referenceErrorDefaultUrl ∧
    construct none none false false
        = Except.error CtorError.referenceErrorDefaultUrl ∧
    construct none (some "sk-test") true true
        = Except.error CtorError.referenceErrorDefaultUrl := by
  refine ⟨rfl, rfl, rfl⟩

/-- C9: in a browser-like environment (document present) any construction
that would succeed with a truthy credential throws unless the opt-in flag
dangerouslyAllowAPIKeyInBrowser is set; with the flag set it succeeds with
the same state. -/
theorem c9_browser_requires_opt_in
    (url : Option URLRec) (apiKey : Option String) (d : Bool) (st : CtorState)
    (hok : construct url apiKey d false = Except.ok st)
    (hkey : jsTruthyStr st.apiKey = true) :
    construct url apiKey false true = Except.error CtorError.browserApiKey ∧
    construct url apiKey true true = Except.ok st := by
  cases hcore : constructCore url apiKey with
  | error e => simp [construct, hcore] at hok
  | ok st0 =>
    simp [construct, hcore] at hok
    subst hok
    constructor
    · simp [construct, hcore, hkey]
    · simp [construct, hcore, hkey]

/-- Witness for C9 at a concrete URL embedding a credential. -/
theorem c9_browser_requires_opt_in_witness :
    construct (some { base := "wss://h/x", params := [("api-key", "K")] }) none false true
        = Except.error CtorError.browserApiKey ∧
    construct (some { base := "wss://h/x", params := [("api-key", "K")] }) none true true
        = Except.ok
            { defaultUrl := "wss://api.openai.com/v1/realtime"
              apiKey := some "K"
              url := { base := "wss://h/x", params := [("api-key", "K")] }
              ws := none } := by
  exact c9_browser_requires_opt_in _ none false _ (by rfl) (by rfl)

theorem objGet_objSet_self (o : List (String × JsValue)) (k : String) (v : JsValue) :
    objGet (objSet o k v) k = some v := by
  induction o with
  | nil => simp [objSet, objGet]
  | cons p rest ih =>
    obtain ⟨k2, w⟩ := p
    by_cases h : k2 = k
    · simp [objSet, objGet, h]
    · simp [objSet, objGet, h, ih]

theorem objGet_objSet_ne (o : List (String × JsValue)) (k k2 : String) (v : JsValue)
    (h : k ≠ k2) : objGet (objSet o k v) k2 = objGet o k2 := by
  induction o with
  | nil => simp [objSet, objGet, h]
  | cons p rest ih =>
    obtain ⟨k3, w⟩ := p
    by_cases h3 : k3 = k
    · subst h3
      by_cases h2 : k3 = k2
      · exact absurd h2 h
      · simp [objSet, objGet, h, h2]
    · by_cases h2 : k3 = k2
      · simp [objSet, objGet, h3, h2, Ne.symm h]
      · simp [objSet, objGet, h3, h2, ih]

theorem objGet_eq_none_of_not_mem (o : List (String × JsValue)) (k : String)
    (h : k ∉ o.map Prod.fst) : objGet o k = none := by
  induction o with
  | nil => rfl
  | cons p rest ih =>
    obtain ⟨k2, w⟩ := p
    rw [List.map_cons, List.mem_cons] at h
    push_neg at h
    simp [objGet, Ne.symm h.1, ih h.2]

theorem mem_of_objGet_eq_some :
    ∀ (o : List (String × JsValue)) (k : String) (v : JsValue),
      objGet o k = some v → (k, v) ∈ o := by
  intro o
  induction o with
  | nil => intro k v h; cases h
  | cons p rest ih =>
    intro k v h
    obtain ⟨k2, w⟩ := p
    by_cases he : k2 = k
    · subst he
      simp [objGet] at h
      subst h
      exact List.mem_cons_self _ _
    · simp [objGet, he] at h
      exact List.mem_cons_of_mem _ (ih k v h)

theorem objGet_spreadInto_of_none :
    ∀ (fields base : List (String × JsValue)) (k : String),
      objGet fields k = none →
      objGet (spreadInto base fields) k = objGet base k := by
  intro fields
  induction fields with
  | nil => intro base k _; rfl
  | cons p rest ih =>
    intro base k h
    obtain ⟨k2, w⟩ := p
    have hne : k2 ≠ k := by
      intro he
      simp [objGet, he] at h
    have h2 : objGet rest k = none := by
      simpa [objGet, hne] using h
    show objGet (spreadInto (objSet base k2 w) rest) k = objGet base k
    rw [ih _ _ h2, objGet_objSet_ne _ _ _ _ hne]

theorem objGet_spreadInto_of_mem :
    ∀ (fields base : List (String × JsValue)) (k : String) (v : JsValue),
      (fields.map Prod.fst).Nodup → (k, v) ∈ fields →
      objGet (spreadInto base fields) k = some v := by
  intro fields
  induction fields with
  | nil => intro base k v _ hmem; cases hmem
  | cons p rest ih =>
    intro base k v hnd hmem
    obtain ⟨k2, w⟩ := p
    rw [List.map_cons, List.nodup_cons] at hnd
    rcases List.mem_cons.mp hmem with he | hrest
    · cases he
      have hnone : objGet rest k = none := objGet_eq_none_of_not_mem _ _ hnd.1
      show objGet (spreadInto (objSet base k v) rest) k = some v
      rw [objGet_spreadInto_of_none _ _ _ hnone, objGet_objSet_self]
    · exact ih (objSet base k2 w) k v hnd.2 hrest

/-- C2 (amended): a transport error before a successful open rejects the
pending connect with a connection error while the state stays Idle; the
internal disconnect call on the pending handle is a no-op returning
undefined, because this.ws was never assigned, so the handle is discarded
without a close being issued on it. -/
theorem c2_error_before_open_rejects_without_close
    (st : ApiState) (w : Nat) (h : st.ws = none) :
    connectErrorBeforeOpen st w =
      { state := st, disconnectRet := none, acts := [], rejected := true } ∧
    isConnected (connectErrorBeforeOpen st w).state = false ∧
    containsCloseAct w (connectErrorBeforeOpen st w).acts = false := by
  obtain ⟨ws⟩ := st
  simp only at h
  subst h
  refine ⟨?_, ?_, ?_⟩
  · simp [connectErrorBeforeOpen, disconnect]
  · simp [connectErrorBeforeOpen, disconnect, isConnected]
  · simp [connectErrorBeforeOpen, disconnect, containsCloseAct]

/-- Witness for C2 at a concrete pre-open error. -/
theorem c2_error_before_open_rejects_without_close_witness :
    connectErrorBeforeOpen { ws := none } 5 =
      { state := { ws := none }, disconnectRet := none, acts := [], rejected := true } ∧
    isConnected (connectErrorBeforeOpen { ws := none } 5).state = false ∧
    containsCloseAct 5 (connectErrorBeforeOpen { ws := none } 5).acts = false :=
  c2_error_before_open_rejects_without_close { ws := none } 5 rfl

/-- C2 counterexample: at a concrete pre-open error the handler rejects, but
its trace is empty: no close is ever issued on the pending handle 0, refuting
that the partially-created transport handle is closed before the rejection. -/
theorem c2_counterexample_no_close :
    containsCloseAct 0 (connectErrorBeforeOpen { ws := none } 0).acts = false ∧
    (connectErrorBeforeOpen { ws := none } 0).acts = [] ∧
    (connectErrorBeforeOpen { ws := none } 0).rejected = true ∧
    (connectErrorBeforeOpen { ws := none } 0).disconnectRet = none :=
  ⟨rfl, rfl, rfl, rfl⟩

/-- C3 (amended): inbound data that is not well-formed JSON makes the message
listener throw an uncaught JSON parse error and nothing is dispatched;
inbound JSON lacking a type field is dispatched under server.undefined and
under the server wildcard with no error report; the connection handle is
left untouched in the second case. -/
theorem c3_malformed_inbound_behavior (st : ApiState) (s : String)
    (fields : List (String × JsValue)) (htype : objGet fields "type" = none) :
    onTransportMessage st (RawMsg.notJson s) = Except.error ListenerError.jsonParseError ∧
    onTransportMessage st (RawMsg.jsonVal (JsValue.objV fields)) =
      Except.ok (st, [JsAction.dispatchAct "server.undefined" (JsValue.objV fields),
        JsAction.dispatchAct "server.*" (JsValue.objV fields)], true) := by
  constructor
  · rfl
  · simp [onTransportMessage, receive, jsTemplateStr, htype]

/-- Witness for C3 at concrete inputs. -/
theorem c3_malformed_inbound_behavior_witness :
    onTransportMessage { ws := some 0 } (RawMsg.notJson "not json")
        = Except.error ListenerError.jsonParseError ∧
    onTransportMessage { ws := some 0 }
        (RawMsg.jsonVal (JsValue.objV [("a", JsValue.numV 1)])) =
      Except.ok ({ ws := some 0 },
        [JsAction.dispatchAct "server.undefined" (JsValue.objV [("a", JsValue.numV 1)]),
         JsAction.dispatchAct "server.*" (JsValue.objV [("a", JsValue.numV 1)])], true) :=
  c3_malformed_inbound_behavior { ws := some 0 } "not json" [("a", JsValue.numV 1)] rfl

/-- C3 counterexample: on a concrete non-JSON frame the listener throws the
parse error and returns no dispatch at all, refuting that the malformed
payload is surfaced through the standard error-reporting event channel and
that the listener does not crash. -/
theorem c3_counterexample_parse_throws :
    onTransportMessage { ws := some 0 } (RawMsg.notJson "this is not json")
        = Except.error ListenerError.jsonParseError ∧
    exceptIsOk (onTransportMessage { ws := some 0 } (RawMsg.notJson "this is not json"))
        = false :=
  ⟨rfl, rfl⟩

/-- C7: disconnect with no argument returns true whether or not a connection
existed, closes the held handle exactly when one was held, clears this.ws so
isConnected is false, never dispatches any event, and a second consecutive
call returns true again with an empty trace and the same Idle state. -/
theorem c7_disconnect_idempotent (st : ApiState) :
    (disconnect st none).2.1 = some true ∧
    (disconnect st none).1 = { ws := none } ∧
    (disconnect st none).2.2 =
      (match st.ws with
       | some w => [JsAction.closeAct w]
       | none => []) ∧
    List.all (disconnect st none).2.2 (fun a => !isDispatchAct a) = true ∧
    isConnected (disconnect st none).1 = false ∧
    disconnect (disconnect st none).1 none = ({ ws := none }, some true, []) := by
  obtain ⟨ws⟩ := st
  cases ws <;> simp [disconnect, isConnected, isDispatchAct]

theorem send_connected_obj (st : ApiState) (eventName : String)
    (fields : List (String × JsValue)) (nonce : Nat)
    (hconn : isConnected st = true) :
    send st eventName (some (JsValue.objV fields)) nonce = Except.ok
      { event := spreadInto [("event_id", JsValue.strV (generateId "evt_" nonce)),
          ("type", JsValue.strV eventName)] fields
        trace := [JsAction.dispatchAct ("client." ++ eventName)
            (JsValue.objV (spreadInto [("event_id", JsValue.strV (generateId "evt_" nonce)),
              ("type", JsValue.strV eventName)] fields)),
          JsAction.dispatchAct "client.*"
            (JsValue.objV (spreadInto [("event_id", JsValue.strV (generateId "evt_" nonce)),
              ("type", JsValue.strV eventName)] fields)),
          JsAction.wireSendAct
            (JsValue.objV (spreadInto [("event_id", JsValue.strV (generateId "evt_" nonce)),
              ("type", JsValue.strV eventName)] fields))]
        ret := true } := by
  simp [send, hconn, jsTruthy, typeofIsObject]

theorem send_not_connected (st : ApiState) (eventName : String)
    (data : Option JsValue) (nonce : Nat) (hconn : isConnected st = false) :
    send st eventName data nonce = Except.error SendError.notConnected := by
  simp [send, hconn]

theorem send_none_eq (st : ApiState) (eventName : String) (nonce : Nat)
    (hconn : isConnected st = true) :
    send st eventName none nonce = Except.ok
      { event := [("event_id", JsValue.strV (generateId "evt_" nonce)),
          ("type", JsValue.strV eventName)]
        trace := [JsAction.dispatchAct ("client." ++ eventName)
            (JsValue.objV [("event_id", JsValue.strV (generateId "evt_" nonce)),
              ("type", JsValue.strV eventName)]),
          JsAction.dispatchAct "client.*"
            (JsValue.objV [("event_id", JsValue.strV (generateId "evt_" nonce)),
              ("type", JsValue.strV eventName)]),
          JsAction.wireSendAct
            (JsValue.objV [("event_id", JsValue.strV (generateId "evt_" nonce)),
              ("type", JsValue.strV eventName)])]
        ret := true } := by
  simp [send, hconn, typeofIsObject, spreadInto]

theorem send_falsy_eq_none (st : ApiState) (eventName : String) (d : JsValue)
    (nonce : Nat) (hconn : isConnected st = true) (hf : jsTruthy d = false) :
    send st eventName (some d) nonce = send st eventName none nonce := by
  simp [send, hconn, hf]

theorem send_truthy_nonobject (st : ApiState) (eventName : String) (d : JsValue)
    (nonce : Nat) (hconn : isConnected st = true) (ht : jsTruthy d = true)
    (hto : typeofIsObject d = false) :
    send st eventName (some d) nonce = Except.error SendError.dataNotObject := by
  simp [send, hconn, ht, hto]

/-- C4 (amended): on every successful send the trace is exactly the dispatch
under client.<type>, then the dispatch under the client wildcard, then the
wire write of the event: the local dispatch precedes the wire send call, the
reverse of the order the claim asserts. -/
theorem c4_dispatch_precedes_wire_send
    (st : ApiState) (eventName : String) (data : Option JsValue) (nonce : Nat)
    (r : SendResult) (h : send st eventName data nonce = Except.ok r) :
    r.trace = [JsAction.dispatchAct ("client." ++ eventName) (JsValue.objV r.event),
      JsAction.dispatchAct "client.*" (JsValue.objV r.event),
      JsAction.wireSendAct (JsValue.objV r.event)] ∧
    List.findIdx isDispatchAct r.trace = 0 ∧
    List.findIdx isWireSendAct r.trace = 2 := by
  cases hb : isConnected st with
  | false =>
    rw [send_not_connected st eventName data nonce hb] at h
    cases h
  | true =>
    rcases data with _ | d
    · rw [send_none_eq st eventName nonce hb, Except.ok.injEq] at h
      subst h
      exact ⟨rfl, rfl, rfl⟩
    · by_cases ht : jsTruthy d = true
      · cases d with
        | nullV => simp [jsTruthy] at ht
        | boolV b =>
          rw [send_truthy_nonobject st eventName _ nonce hb ht rfl] at h
          cases h
        | numV n =>
          rw [send_truthy_nonobject st eventName _ nonce hb ht rfl] at h
          cases h
        | strV s =>
          rw [send_truthy_nonobject st eventName _ nonce hb ht rfl] at h
          cases h
        | objV fs =>
          rw [send_connected_obj st eventName fs nonce hb, Except.ok.injEq] at h
          subst h
          exact ⟨rfl, rfl, rfl⟩
      · have htf : jsTruthy d = false := by
          revert ht
          cases jsTruthy d <;> simp
        rw [send_falsy_eq_none st eventName d nonce hb htf,
          send_none_eq st eventName nonce hb, Except.ok.injEq] at h
        subst h
        exact ⟨rfl, rfl, rfl⟩

/-- Witness for C4 on a concrete connected send with no payload. -/
theorem c4_dispatch_precedes_wire_send_witness :
    (SendResult.mk
      [("event_id", JsValue.strV "evt_0"), ("type", JsValue.strV "ping")]
      [JsAction.dispatchAct "client.ping"
         (JsValue.objV [("event_id", JsValue.strV "evt_0"), ("type", JsValue.strV "ping")]),
       JsAction.dispatchAct "client.*"
         (JsValue.objV [("event_id", JsValue.strV "evt_0"), ("type", JsValue.strV "ping")]),
       JsAction.wireSendAct
         (JsValue.objV [("event_id", JsValue.strV "evt_0"), ("type", JsValue.strV "ping")])]
      true).trace =
      [JsAction.dispatchAct ("client." ++ "ping")
         (JsValue.objV [("event_id", JsValue.strV "evt_0"), ("type", JsValue.strV "ping")]),
       JsAction.dispatchAct "client.*"
         (JsValue.objV [("event_id", JsValue.strV "evt_0"), ("type", JsValue.strV "ping")]),
       JsAction.wireSendAct
         (JsValue.objV [("event_id", JsValue.strV "evt_0"), ("type", JsValue.strV "ping")])] ∧
    List.findIdx isDispatchAct
      [JsAction.dispatchAct "client.ping"
         (JsValue.objV [("event_id", JsValue.strV "evt_0"), ("type", JsValue.strV "ping")]),
       JsAction.dispatchAct "client.*"
         (JsValue.objV [("event_id", JsValue.strV "evt_0"), ("type", JsValue.strV "ping")]),
       JsAction.wireSendAct
         (JsValue.objV [("event_id", JsValue.strV "evt_0"), ("type", JsValue.strV "ping")])] = 0 ∧
    List.findIdx isWireSendAct
      [JsAction.dispatchAct "client.ping"
         (JsValue.objV [("event_id", JsValue.strV "evt_0"), ("type", JsValue.strV "ping")]),
       JsAction.dispatchAct "client.*"
         (JsValue.objV [("event_id", JsValue.strV "evt_0"), ("type", JsValue.strV "ping")]),
       JsAction.wireSendAct
         (JsValue.objV [("event_id", JsValue.strV "evt_0"), ("type", JsValue.strV "ping")])] = 2 :=
  c4_dispatch_precedes_wire_send { ws := some 0 } "ping" none 0 _ rfl

/-- C4 counterexample: on a concrete connected send the first wire write
comes strictly after the first local dispatch in the trace, refuting that
the event reaches the wire send call before or atomically with the local
dispatch. -/
theorem c4_counterexample_wire_after_dispatch :
    sendWireBeforeDispatch { ws := some 0 } "ping" none 0 = false ∧
    isConnected { ws := some 0 } = true :=
  ⟨rfl, rfl⟩

/-- C5 (amended): while connected, for a payload object whose keys are
pairwise distinct and include neither event_id nor type, send returns true,
builds the event as the payload spread over the stamped fields (a fresh
object, leaving the payload itself untouched), dispatches it under
client.<type> and under the client wildcard before the wire write, and the
event carries the given type, a freshly generated non-empty event_id, and
every key/value pair of the payload. -/
theorem c5_send_connected_event_contents
    (st : ApiState) (eventName : String) (fields : List (String × JsValue))
    (nonce : Nat) (k : String) (v : JsValue)
    (hconn : isConnected st = true)
    (hid : objGet fields "event_id" = none)
    (htype : objGet fields "type" = none)
    (hnd : (fields.map Prod.fst).Nodup)
    (hkv : (k, v) ∈ fields) :
    send st eventName (some (JsValue.objV fields)) nonce = Except.ok
      { event := spreadInto [("event_id", JsValue.strV (generateId "evt_" nonce)),
          ("type", JsValue.strV eventName)] fields
        trace := [JsAction.dispatchAct ("client." ++ eventName)
            (JsValue.objV (spreadInto [("event_id", JsValue.strV (generateId "evt_" nonce)),
              ("type", JsValue.strV eventName)] fields)),
          JsAction.dispatchAct "client.*"
            (JsValue.objV (spreadInto [("event_id", JsValue.strV (generateId "evt_" nonce)),
              ("type", JsValue.strV eventName)] fields)),
          JsAction.wireSendAct
            (JsValue.objV (spreadInto [("event_id", JsValue.strV (generateId "evt_" nonce)),
              ("type", JsValue.strV eventName)] fields))]
        ret := true } ∧
    objGet (spreadInto [("event_id", JsValue.strV (generateId "evt_" nonce)),
        ("type", JsValue.strV eventName)] fields) "type"
      = some (JsValue.strV eventName) ∧
    objGet (spreadInto [("event_id", JsValue.strV (generateId "evt_" nonce)),
        ("type", JsValue.strV eventName)] fields) "event_id"
      = some (JsValue.strV (generateId "evt_" nonce)) ∧
    0 < (generateId "evt_" nonce).length ∧
    objGet (spreadInto [("event_id", JsValue.strV (generateId "evt_" nonce)),
        ("type", JsValue.strV eventName)] fields) k = some v := by
  refine ⟨send_connected_obj st eventName fields nonce hconn, ?_, ?_, ?_, ?_⟩
  · rw [objGet_spreadInto_of_none _ _ _ htype]
    rfl
  · rw [objGet_spreadInto_of_none _ _ _ hid]
    rfl
  · have h4 : ("evt_" : String).length = 4 := rfl
    rw [generateId, String.length_append, h4]
    omega
  · exact objGet_spreadInto_of_mem _ _ _ _ hnd hkv

/-- Witness for C5 at a concrete connected send with payload foo equal 1. -/
theorem c5_send_connected_event_contents_witness :
    send { ws := some 0 } "response.create" (some (JsValue.objV [("foo", JsValue.numV 1)])) 7
      = Except.ok
      { event := spreadInto [("event_id", JsValue.strV (generateId "evt_" 7)),
          ("type", JsValue.strV "response.create")] [("foo", JsValue.numV 1)]
        trace := [JsAction.dispatchAct ("client." ++ "response.create")
            (JsValue.objV (spreadInto [("event_id", JsValue.strV (generateId "evt_" 7)),
              ("type", JsValue.strV "response.create")] [("foo", JsValue.numV 1)])),
          JsAction.dispatchAct "client.*"
            (JsValue.objV (spreadInto [("event_id", JsValue.strV (generateId "evt_" 7)),
              ("type", JsValue.strV "response.create")] [("foo", JsValue.numV 1)])),
          JsAction.wireSendAct
            (JsValue.objV (spreadInto [("event_id", JsValue.strV (generateId "evt_" 7)),
              ("type", JsValue.strV "response.create")] [("foo", JsValue.numV 1)]))]
        ret := true } ∧
    objGet (spreadInto [("event_id", JsValue.strV (generateId "evt_" 7)),
        ("type", JsValue.strV "response.create")] [("foo", JsValue.numV 1)]) "type"
      = some (JsValue.strV "response.create") ∧
    objGet (spreadInto [("event_id", JsValue.strV (generateId "evt_" 7)),
        ("type", JsValue.strV "response.create")] [("foo", JsValue.numV 1)]) "event_id"
      = some (JsValue.strV (generateId "evt_" 7)) ∧
    0 < (generateId "evt_" 7).length ∧
    objGet (spreadInto [("event_id", JsValue.strV (generateId "evt_" 7)),
        ("type", JsValue.strV "response.create")] [("foo", JsValue.numV 1)]) "foo"
      = some (JsValue.numV 1) :=
  c5_send_connected_event_contents { ws := some 0 } "response.create"
    [("foo", JsValue.numV 1)] 7 "foo" (JsValue.numV 1) rfl rfl rfl
    (by simp) (List.mem_cons_self _ _)

/-- C5 counterexample: while connected, sending type a with the payload
containing its own type key b yields an event whose type field is b, not the
given type a: the claim cannot hold for payloads that carry a type or
event_id key, since the spread overrides the stamped fields. -/
theorem c5_counterexample_payload_type_wins :
    (okOf (send { ws := some 0 } "a" (some (JsValue.objV [("type", JsValue.strV "b")])) 0)).map
        (fun r => objGet r.event "type") = some (some (JsValue.strV "b")) ∧
    (("b" : String) == "a") = false :=
  ⟨rfl, rfl⟩

/-- C6 (amended): send while not connected throws the not-connected state
error, with a present or an absent payload alike, before any write or
dispatch; while connected, a truthy payload that is not of typeof object
throws the data-must-be-an-object error, and a falsy present payload (zero,
false, the empty string, null) is replaced by the empty object, behaving
exactly like an absent payload instead of erroring. -/
theorem c6_send_guards
    (st : ApiState) (eventName : String) (d : JsValue) (nonce : Nat) :
    (isConnected st = false →
      send st eventName (some d) nonce = Except.error SendError.notConnected ∧
      send st eventName none nonce = Except.error SendError.notConnected) ∧
    (isConnected st = true → jsTruthy d = true → typeofIsObject d = false →
      send st eventName (some d) nonce = Except.error SendError.dataNotObject) ∧
    (isConnected st = true → jsTruthy d = false →
      send st eventName (some d) nonce = send st eventName none nonce) :=
  ⟨fun h => ⟨send_not_connected st eventName (some d) nonce h,
      send_not_connected st eventName none nonce h⟩,
   fun h1 h2 h3 => send_truthy_nonobject st eventName d nonce h1 h2 h3,
   fun h1 h2 => send_falsy_eq_none st eventName d nonce h1 h2⟩

/-- Witness for C6: a disconnected send throws the state error, a connected
send with a truthy string payload throws the object error, and a connected
send with the falsy payload zero behaves like a send with no payload. -/
theorem c6_send_guards_witness :
    send { ws := none } "ping" (some (JsValue.strV "x")) 0
        = Except.error SendError.notConnected ∧
    send { ws := some 0 } "ping" (some (JsValue.strV "x")) 0
        = Except.error SendError.dataNotObject ∧
    send { ws := some 0 } "ping" (some (JsValue.numV 0)) 0
        = send { ws := some 0 } "ping" none 0 :=
  ⟨((c6_send_guards { ws := none } "ping" (JsValue.strV "x") 0).1 rfl).1,
   (c6_send_guards { ws := some 0 } "ping" (JsValue.strV "x") 0).2.1 rfl rfl rfl,
   (c6_send_guards { ws := some 0 } "ping" (JsValue.numV 0) 0).2.2 rfl rfl⟩

/-- C6 counterexample: the payload zero is present and is not a key/value
mapping, yet the connected send succeeds instead of raising: the falsy
payload is replaced by an empty object before the typeof check. -/
theorem c6_counterexample_falsy_payload_accepted :
    exceptIsOk (send { ws := some 0 } "ping" (some (JsValue.numV 0)) 0) = true ∧
    typeofIsObject (JsValue.numV 0) = false ∧
    isConnected { ws := some 0 } = true :=
  ⟨rfl, rfl, rfl⟩

/-- C10: while connected, a payload object with pairwise distinct keys that
itself carries an event_id or type key wins over the stamped fields: the
built, dispatched and wire-sent event holds the caller-supplied value at
that key, because the payload is spread over the stamped fields. -/
theorem c10_payload_overrides_stamped
    (st : ApiState) (eventName : String) (fields : List (String × JsValue))
    (nonce : Nat) (k : String) (v : JsValue)
    (hconn : isConnected st = true)
    (hnd : (fields.map Prod.fst).Nodup)
    (hk : k = "event_id" ∨ k = "type")
    (hkv : (k, v) ∈ fields) :
    send st eventName (some (JsValue.objV fields)) nonce = Except.ok
      { event := spreadInto [("event_id", JsValue.strV (generateId "evt_" nonce)),
          ("type", JsValue.strV eventName)] fields
        trace := [JsAction.dispatchAct ("client." ++ eventName)
            (JsValue.objV (spreadInto [("event_id", JsValue.strV (generateId "evt_" nonce)),
              ("type", JsValue.strV eventName)] fields)),
          JsAction.dispatchAct "client.*"
            (JsValue.objV (spreadInto [("event_id", JsValue.strV (generateId "evt_" nonce)),
              ("type", JsValue.strV eventName)] fields)),
          JsAction.wireSendAct
            (JsValue.objV (spreadInto [("event_id", JsValue.strV (generateId "evt_" nonce)),
              ("type", JsValue.strV eventName)] fields))]
        ret := true } ∧
    objGet (spreadInto [("event_id", JsValue.strV (generateId "evt_" nonce)),
        ("type", JsValue.strV eventName)] fields) k = some v := by
  cases hk with
  | inl hke =>
    exact ⟨send_connected_obj st eventName fields nonce hconn,
      objGet_spreadInto_of_mem _ _ _ _ hnd hkv⟩
  | inr hkt =>
    exact ⟨send_connected_obj st eventName fields nonce hconn,
      objGet_spreadInto_of_mem _ _ _ _ hnd hkv⟩

/-- Witness for C10: the payload carries both a custom event_id and its own
type b; the built event holds type b rather than the given type a. -/
theorem c10_payload_overrides_stamped_witness :
    send { ws := some 0 } "a"
      (some (JsValue.objV [("event_id", JsValue.strV "custom"), ("type", JsValue.strV "b")])) 3
      = Except.ok
      { event := spreadInto [("event_id", JsValue.strV (generateId "evt_" 3)),
          ("type", JsValue.strV "a")]
          [("event_id", JsValue.strV "custom"), ("type", JsValue.strV "b")]
        trace := [JsAction.dispatchAct ("client." ++ "a")
            (JsValue.objV (spreadInto [("event_id", JsValue.strV (generateId "evt_" 3)),
              ("type", JsValue.strV "a")]
              [("event_id", JsValue.strV "custom"), ("type", JsValue.strV "b")])),
          JsAction.dispatchAct "client.*"
            (JsValue.objV (spreadInto [("event_id", JsValue.strV (generateId "evt_" 3)),
              ("type", JsValue.strV "a")]
              [("event_id", JsValue.strV "custom"), ("type", JsValue.strV "b")])),
          JsAction.wireSendAct
            (JsValue.objV (spreadInto [("event_id", JsValue.strV (generateId "evt_" 3)),
              ("type", JsValue.strV "a")]
              [("event_id", JsValue.strV "custom"), ("type", JsValue.strV "b")]))]
        ret := true } ∧
    objGet (spreadInto [("event_id", JsValue.strV (generateId "evt_" 3)),
        ("type", JsValue.strV "a")]
        [("event_id", JsValue.strV "custom"), ("type", JsValue.strV "b")]) "type"
      = some (JsValue.strV "b") :=
  c10_payload_overrides_stamped { ws := some 0 } "a"
    [("event_id", JsValue.strV "custom"), ("type", JsValue.strV "b")] 3
    "type" (JsValue.strV "b") rfl (by simp) (Or.inr rfl)
    (List.mem_cons_of_mem _ (List.mem_cons_self _ _))
